import Mathlib

/-!
Shallow embedding of the authority-endpoint resolution manager of a Go
public-client authentication library
(`src/internal/requests/authority_endpoint_resolution_manager.go`), together
with the tenant-override matrix exercised by the repository's
`TestAcquireTokenWithTenantID`.

Go strings are modelled as `List Char`; the Go `strings` helpers used by the
code (`strings.Split` with a one-character separator, `strings.Replace` with
count `-1`) are embedded below.  Go's fallible external collaborators are
modelled as `Except`-returning functions, and a run-time panic (out-of-range
index) as the `GoResult.panicked` outcome.
-/

namespace MSAL

/-- A Go string, modelled as its list of characters. -/
abbrev GoString := List Char

/-- Go `strings.Split(s, sep)` for a one-character separator: the substrings
between consecutive occurrences of `sep`, never empty as a list. -/
def splitOnChar (sep : Char) : GoString → List GoString
  | [] => [[]]
  | c :: cs =>
    if c = sep then
      [] :: splitOnChar sep cs
    else
      match splitOnChar sep cs with
      | [] => [[c]]
      | r :: rs => (c :: r) :: rs

/-- `leadsWith p s` is true when `p` is an initial segment of `s`
(Go `strings.HasPrefix`). -/
def leadsWith : GoString → GoString → Bool
  | [], _ => true
  | _ :: _, [] => false
  | p :: ps, c :: cs => p = c && leadsWith ps cs

/-- Go `strings.Replace(s, pat, rep, -1)`: replace every non-overlapping
occurrence of `pat` in `s` by `rep`, scanning left to right.  (The Go code
only ever calls it with the fixed non-empty pattern `"\x7btenant\x7d"`.) -/
def replaceAll (pat rep : GoString) : GoString → GoString
  | [] => []
  | c :: cs =>
    if h : pat ≠ [] ∧ leadsWith pat (c :: cs) = true then
      rep ++ replaceAll pat rep ((c :: cs).drop pat.length)
    else
      c :: replaceAll pat rep cs
termination_by s => s.length
decreasing_by
  · simp only [List.length_drop, List.length_cons]
    have hp : 0 < pat.length := List.length_pos.mpr h.1
    omega
  · simp only [List.length_cons]
    omega

/-- The literal placeholder `"\x7btenant\x7d"` substituted by the resolver. -/
def tenantPlaceholder : GoString := "\x7btenant\x7d".toList

/-- The authority types distinguished by the code (`msalbase.ADFS` is the
federated ADFS type; `MSSTS` is the standard provider). -/
inductive AuthorityType where
  | MSSTS
  | ADFS
deriving DecidableEq

/-- `msalbase.AuthorityInfo`: immutable description of an authority. -/
structure AuthorityInfo where
  Host : GoString
  Tenant : GoString
  AuthorityType : AuthorityType
  CanonicalAuthorityURI : GoString
  ValidateAuthority : Bool
deriving DecidableEq

/-- `msalbase.AuthorityEndpoints`. -/
structure AuthorityEndpoints where
  AuthorizationEndpoint : GoString
  TokenEndpoint : GoString
  Issuer : GoString
  Host : GoString
deriving DecidableEq

/-- `msalbase.CreateAuthorityEndpoints`. -/
def CreateAuthorityEndpoints (authorizationEndpoint tokenEndpoint issuer host :
    GoString) : AuthorityEndpoints :=
  ⟨authorizationEndpoint, tokenEndpoint, issuer, host⟩

/-- `requests.TenantDiscoveryResponse`, the document returned by the
Discovery Fetcher. -/
structure TenantDiscoveryResponse where
  AuthorizationEndpoint : GoString
  TokenEndpoint : GoString
  Issuer : GoString
deriving DecidableEq

/-- Modelled from the spec: `TenantDiscoveryResponse.HasAuthorizationEndpoint`
is not under src/; the spec requires "a non-empty authorization endpoint". -/
def TenantDiscoveryResponse.HasAuthorizationEndpoint
    (t : TenantDiscoveryResponse) : Bool :=
  !t.AuthorizationEndpoint.isEmpty

/-- Modelled from the spec: `TenantDiscoveryResponse.HasTokenEndpoint`
is not under src/; the spec requires "a non-empty ... token endpoint". -/
def TenantDiscoveryResponse.HasTokenEndpoint
    (t : TenantDiscoveryResponse) : Bool :=
  !t.TokenEndpoint.isEmpty

/-- Modelled from the spec: `TenantDiscoveryResponse.HasIssuer`
is not under src/; the spec requires "a non-empty ... issuer". -/
def TenantDiscoveryResponse.HasIssuer (t : TenantDiscoveryResponse) : Bool :=
  !t.Issuer.isEmpty

/-- `authorityEndpointCacheEntry`: endpoints plus the set of UPN domains the
entry is valid for (the Go `map[string]bool` used as a set). -/
structure authorityEndpointCacheEntry where
  Endpoints : AuthorityEndpoints
  ValidForDomainsInList : List GoString
deriving DecidableEq

/-- `createAuthorityEndpointCacheEntry`: a fresh entry with an empty domain
set. -/
def createAuthorityEndpointCacheEntry (endpoints : AuthorityEndpoints) :
    authorityEndpointCacheEntry :=
  ⟨endpoints, []⟩

/-- The package-global `endpointCacheEntries` map, keyed by canonical
authority URI.  It lives outside every `AuthorityEndpointResolutionManager`
value and is threaded explicitly through the operations. -/
abbrev EndpointCache := List (GoString × authorityEndpointCacheEntry)

/-- Go map lookup `endpointCacheEntries[key]`. -/
def cacheLookup : EndpointCache → GoString → Option authorityEndpointCacheEntry
  | [], _ => none
  | (k, e) :: rest, key => if k = key then some e else cacheLookup rest key

/-- Go map assignment `endpointCacheEntries[key] = e` (replace or append). -/
def cacheStore : EndpointCache → GoString → authorityEndpointCacheEntry →
    EndpointCache
  | [], key, e => [(key, e)]
  | (k, e') :: rest, key, e =>
    if k = key then (key, e) :: rest else (k, e') :: cacheStore rest key e

/-- Go set insertion `m[d] = true` on a `map[string]bool` used as a set. -/
def setInsert (ds : List GoString) (d : GoString) : List GoString :=
  if d ∈ ds then ds else ds ++ [d]

/-- The outcome of running a Go function that may panic. -/
inductive GoResult (α : Type) where
  | panicked
  | ok (a : α)
deriving DecidableEq

/-- The errors `ResolveEndpoints` can return, one constructor per
`errors.New` site or propagated collaborator failure. -/
inductive ResolveError where
  /-- "UPN Required for Authority Validation for ADFS" (a validation
  error). -/
  | upnRequiredForADFS
  /-- `createOpenIDConfigurationEndpointManager` failed. -/
  | endpointManagerCreation (msg : GoString)
  /-- `getOpenIDConfigurationEndpoint` failed. -/
  | openIDConfigEndpoint (msg : GoString)
  /-- `GetTenantDiscoveryResponse` failed. -/
  | tenantDiscovery (msg : GoString)
  /-- "Authorize endpoint was not found in the openid configuration". -/
  | authorizeEndpointNotFound
  /-- "Token endpoint was not found in the openid configuration". -/
  | tokenEndpointNotFound
  /-- "Issuer was not found in the openid configuration". -/
  | issuerNotFound
deriving DecidableEq

/-- `getAdfsDomainFromUpn`: Go `strings.Split(userPrincipalName, "@")[1]`.
The Go code indexes position 1 unconditionally; when the split has fewer
than two elements (no `'@'` in the UPN) the index is out of range and the
program panics, modelled here by `none`. -/
def getAdfsDomainFromUpn (userPrincipalName : GoString) : Option GoString :=
  (splitOnChar '@' userPrincipalName).get? 1

/-- `AuthorityEndpointResolutionManager`: holds only the injected web
request manager (the Discovery Fetcher); the endpoint cache is NOT a field —
in the source it is the package-global `endpointCacheEntries`. -/
structure AuthorityEndpointResolutionManager where
  webRequestManager : GoString → Except GoString TenantDiscoveryResponse

/-- The `getOpenIDConfigurationEndpoint` method of the endpoint manager
returned by `createOpenIDConfigurationEndpointManager` (that file is not
under src/, so the function is kept abstract). -/
abbrev EndpointManagerFun := AuthorityInfo → GoString → Except GoString GoString

/-- `createOpenIDConfigurationEndpointManager`, kept abstract (not under
src/): it may fail, or yield an endpoint manager. -/
abbrev EndpointManagerFactory := AuthorityInfo → Except GoString EndpointManagerFun

/-- `tryGetCachedEndpoints`: consult the shared cache; for ADFS authorities
a hit additionally requires the UPN domain to be in the entry's domain set
(and extracting that domain can panic). -/
def tryGetCachedEndpoints (authorityInfo : AuthorityInfo)
    (userPrincipalName : GoString) (cache : EndpointCache) :
    GoResult (Option AuthorityEndpoints) :=
  match cacheLookup cache authorityInfo.CanonicalAuthorityURI with
  | some cacheEntry =>
    if authorityInfo.AuthorityType = AuthorityType.ADFS then
      match getAdfsDomainFromUpn userPrincipalName with
      | none => GoResult.panicked
      | some d =>
        if d ∈ cacheEntry.ValidForDomainsInList then
          GoResult.ok (some cacheEntry.Endpoints)
        else
          GoResult.ok none
    else
      GoResult.ok (some cacheEntry.Endpoints)
  | none => GoResult.ok none

/-- `addCachedEndpoints`: store a fresh entry for the canonical URI; for
ADFS, first copy every domain of the existing entry into the fresh entry,
then add the UPN's own domain (whose extraction can panic). -/
def addCachedEndpoints (authorityInfo : AuthorityInfo)
    (userPrincipalName : GoString) (endpoints : AuthorityEndpoints)
    (cache : EndpointCache) : GoResult EndpointCache :=
  let updatedCacheEntry := createAuthorityEndpointCacheEntry endpoints
  if authorityInfo.AuthorityType = AuthorityType.ADFS then
    let baseDomains :=
      match cacheLookup cache authorityInfo.CanonicalAuthorityURI with
      | some cacheEntry =>
        cacheEntry.ValidForDomainsInList ++ updatedCacheEntry.ValidForDomainsInList
      | none => updatedCacheEntry.ValidForDomainsInList
    match getAdfsDomainFromUpn userPrincipalName with
    | none => GoResult.panicked
    | some d =>
      GoResult.ok (cacheStore cache authorityInfo.CanonicalAuthorityURI
        ⟨endpoints, setInsert baseDomains d⟩)
  else
    GoResult.ok (cacheStore cache authorityInfo.CanonicalAuthorityURI
      updatedCacheEntry)

/-- The observable outcome of one `ResolveEndpoints` call: the returned
value (endpoints, error, or panic), the state of the shared cache
afterwards, and how many Discovery Fetcher calls were issued. -/
structure ResolveOutcome where
  result : GoResult (Except ResolveError AuthorityEndpoints)
  cache : EndpointCache
  discoveryCalls : Nat

/-- `ResolveEndpoints`: validate, consult the shared cache, otherwise run
discovery, validate the document, substitute `\x7btenant\x7d`, and store the
endpoints.  `createEndpointManager` stands for the package function
`createOpenIDConfigurationEndpointManager` whose file is not under src/. -/
def ResolveEndpoints (m : AuthorityEndpointResolutionManager)
    (createEndpointManager : EndpointManagerFactory)
    (authorityInfo : AuthorityInfo) (userPrincipalName : GoString)
    (cache : EndpointCache) : ResolveOutcome :=
  if authorityInfo.AuthorityType = AuthorityType.ADFS ∧ userPrincipalName = [] then
    ⟨GoResult.ok (Except.error ResolveError.upnRequiredForADFS), cache, 0⟩
  else
    match tryGetCachedEndpoints authorityInfo userPrincipalName cache with
    | GoResult.panicked => ⟨GoResult.panicked, cache, 0⟩
    | GoResult.ok (some endpoints) =>
      ⟨GoResult.ok (Except.ok endpoints), cache, 0⟩
    | GoResult.ok none =>
      match createEndpointManager authorityInfo with
      | Except.error msg =>
        ⟨GoResult.ok (Except.error (ResolveError.endpointManagerCreation msg)),
          cache, 0⟩
      | Except.ok endpointManager =>
        match endpointManager authorityInfo userPrincipalName with
        | Except.error msg =>
          ⟨GoResult.ok (Except.error (ResolveError.openIDConfigEndpoint msg)),
            cache, 0⟩
        | Except.ok openIDConfigurationEndpoint =>
          match m.webRequestManager openIDConfigurationEndpoint with
          | Except.error msg =>
            ⟨GoResult.ok (Except.error (ResolveError.tenantDiscovery msg)),
              cache, 1⟩
          | Except.ok tenantDiscoveryResponse =>
            if !tenantDiscoveryResponse.HasAuthorizationEndpoint then
              ⟨GoResult.ok (Except.error ResolveError.authorizeEndpointNotFound),
                cache, 1⟩
            else if !tenantDiscoveryResponse.HasTokenEndpoint then
              ⟨GoResult.ok (Except.error ResolveError.tokenEndpointNotFound),
                cache, 1⟩
            else if !tenantDiscoveryResponse.HasIssuer then
              ⟨GoResult.ok (Except.error ResolveError.issuerNotFound),
                cache, 1⟩
            else
              let tenant := authorityInfo.Tenant
              let endpoints := CreateAuthorityEndpoints
                (replaceAll tenantPlaceholder tenant
                  tenantDiscoveryResponse.AuthorizationEndpoint)
                (replaceAll tenantPlaceholder tenant
                  tenantDiscoveryResponse.TokenEndpoint)
                (replaceAll tenantPlaceholder tenant
                  tenantDiscoveryResponse.Issuer)
                authorityInfo.Host
              match addCachedEndpoints authorityInfo userPrincipalName
                  endpoints cache with
              | GoResult.panicked => ⟨GoResult.panicked, cache, 1⟩
              | GoResult.ok cache' =>
                ⟨GoResult.ok (Except.ok endpoints), cache', 1⟩

/-! ### Vocabulary for the statements -/

deriving instance DecidableEq for Except

/-- The spec's reading of the UPN's domain portion: "the substring after the
last `'@'`", i.e. the last field of the `'@'`-split.  Stated for comparison
with `getAdfsDomainFromUpn`, which the code implements as field 1 of the
split (the substring after the FIRST `'@'`). -/
def specUpnDomain (userPrincipalName : GoString) : GoString :=
  (splitOnChar '@' userPrincipalName).getLastD []

/-- `servedFromCache o eps`: the call returned `eps` from the shared cache,
issuing no Discovery Fetcher call. -/
abbrev servedFromCache (o : ResolveOutcome) (eps : AuthorityEndpoints) : Prop :=
  o.result = GoResult.ok (Except.ok eps) ∧ o.discoveryCalls = 0

/-! ### The tenant-override matrix of `TestAcquireTokenWithTenantID`

The implementation of tenant-override validation is not under src/; the
repository's test `TestAcquireTokenWithTenantID` (which is) fixes its
behavior on six concrete base/override combinations.  The table below is a
direct translation of that test's table. -/

/-- A discovery document whose endpoints carry the tenant placeholder. -/
def tdrFix : TenantDiscoveryResponse :=
  ⟨"a/\x7btenant\x7d".toList, "tk/\x7btenant\x7d".toList, "iss".toList⟩

/-- A discovery document with an empty authorization endpoint. -/
def tdrNoAuth : TenantDiscoveryResponse := ⟨[], "tk".toList, "iss".toList⟩

/-- A web request manager whose Discovery Fetcher succeeds with `tdrFix`. -/
def mgrUp : AuthorityEndpointResolutionManager := ⟨fun _ => Except.ok tdrFix⟩

/-- A web request manager whose Discovery Fetcher always fails. -/
def mgrDown : AuthorityEndpointResolutionManager :=
  ⟨fun _ => Except.error "offline".toList⟩

/-- A web request manager returning the incomplete document `tdrNoAuth`. -/
def mgrNoAuth : AuthorityEndpointResolutionManager := ⟨fun _ => Except.ok tdrNoAuth⟩

/-- An endpoint-manager factory that succeeds with a fixed document URL. -/
def cemOk : EndpointManagerFactory :=
  fun _ => Except.ok (fun _ _ => Except.ok "cfg".toList)

/-- An endpoint-manager factory that always fails. -/
def cemFail : EndpointManagerFactory := fun _ => Except.error "no manager".toList

/-- A standard-provider (`MSSTS`) authority. -/
def authStd : AuthorityInfo :=
  ⟨"h".toList, "t0".toList, AuthorityType.MSSTS, "https://u".toList, true⟩

/-- A federated `ADFS` authority. -/
def authAdfs : AuthorityInfo :=
  ⟨"h".toList, "t0".toList, AuthorityType.ADFS, "https://adfs".toList, true⟩

/-- Fixed endpoints for cache fixtures. -/
def epsFix : AuthorityEndpoints :=
  ⟨"ae".toList, "te".toList, "is0".toList, "h".toList⟩

/-- An ADFS cache entry valid exactly for domain `"c"`. -/
def entryDomC : authorityEndpointCacheEntry := ⟨epsFix, ["c".toList]⟩

/-- A cache holding `entryDomC` at `authAdfs`'s canonical URI. -/
def cacheDomC : EndpointCache := [("https://adfs".toList, entryDomC)]

/-- An ADFS cache entry valid exactly for domain `"b"`. -/
def entryDomB : authorityEndpointCacheEntry := ⟨epsFix, ["b".toList]⟩

/-- A cache holding `entryDomB` at `authAdfs`'s canonical URI. -/
def cacheDomB : EndpointCache := [("https://adfs".toList, entryDomB)]

/-- An ADFS cache entry valid exactly for domain `"y.com"`. -/
def entryDomY : authorityEndpointCacheEntry := ⟨epsFix, ["y.com".toList]⟩

/-- A cache holding `entryDomY` at `authAdfs`'s canonical URI. -/
def cacheDomY : EndpointCache := [("https://adfs".toList, entryDomY)]

/-! ### Helper lemmas: splitting and the UPN domain -/

theorem splitOnChar_ne_nil (sep : Char) (s : GoString) : splitOnChar sep s ≠ [] := by
  induction s with
  | nil => simp [splitOnChar]
  | cons c cs ih =>
    simp only [splitOnChar]
    split_ifs
    · simp
    · cases hsp : splitOnChar sep cs with
      | nil => simp
      | cons r rs => simp

theorem splitOnChar_no_sep (sep : Char) (s : GoString) (h : sep ∉ s) :
    splitOnChar sep s = [s] := by
  induction s with
  | nil => rfl
  | cons c cs ih =>
    have hc : ¬ c = sep := by rintro rfl; exact h (List.mem_cons_self _ _)
    have hcs : sep ∉ cs := fun hm => h (List.mem_cons_of_mem _ hm)
    simp [splitOnChar, hc, ih hcs]

theorem two_le_splitOnChar_length (sep : Char) (s : GoString) (h : sep ∈ s) :
    2 ≤ (splitOnChar sep s).length := by
  induction s with
  | nil => cases h
  | cons c cs ih =>
    by_cases hc : c = sep
    · have hpos : 0 < (splitOnChar sep cs).length :=
        List.length_pos.mpr (splitOnChar_ne_nil sep cs)
      simp only [splitOnChar, if_pos hc, List.length_cons]
      omega
    · have hmem : sep ∈ cs := by
        rcases List.mem_cons.mp h with h' | h'
        · exact absurd h'.symm hc
        · exact h'
      have h2 := ih hmem
      simp only [splitOnChar, if_neg hc]
      cases hsp : splitOnChar sep cs with
      | nil => exact absurd hsp (splitOnChar_ne_nil sep cs)
      | cons r rs =>
        rw [hsp] at h2
        simpa using h2

theorem getAdfsDomainFromUpn_eq_none (upn : GoString) (h : '@' ∉ upn) :
    getAdfsDomainFromUpn upn = none := by
  simp [getAdfsDomainFromUpn, splitOnChar_no_sep _ _ h]

theorem getAdfsDomainFromUpn_isSome (upn : GoString) (h : '@' ∈ upn) :
    ∃ d, getAdfsDomainFromUpn upn = some d := by
  have h2 := two_le_splitOnChar_length '@' upn h
  have h1 : 1 < (splitOnChar '@' upn).length := by omega
  exact ⟨_, List.get?_eq_get h1⟩

theorem getAdfsDomainFromUpn_ne_nil (upn : GoString) (d : GoString)
    (hd : getAdfsDomainFromUpn upn = some d) : upn ≠ [] := by
  rintro rfl
  simp [getAdfsDomainFromUpn, splitOnChar] at hd

/-! ### Helper lemmas: the cache map and domain sets -/

theorem cacheLookup_cacheStore_self (c : EndpointCache) (k : GoString)
    (e : authorityEndpointCacheEntry) :
    cacheLookup (cacheStore c k e) k = some e := by
  induction c with
  | nil => simp [cacheStore, cacheLookup]
  | cons p rest ih =>
    obtain ⟨k', e'⟩ := p
    by_cases hk : k' = k
    · simp [cacheStore, cacheLookup, hk]
    · simp [cacheStore, cacheLookup, hk, ih]

theorem mem_setInsert (ds : List GoString) (d x : GoString) :
    x ∈ setInsert ds d ↔ x ∈ ds ∨ x = d := by
  unfold setInsert
  split_ifs with h
  · constructor
    · exact Or.inl
    · rintro (hx | rfl)
      · exact hx
      · exact h
  · simp [List.mem_append]

/-! ### Helper lemmas: `tryGetCachedEndpoints` and `addCachedEndpoints` -/

theorem tryGet_adfs_hit (A : AuthorityInfo) (upn : GoString) (cache : EndpointCache)
    (entry : authorityEndpointCacheEntry) (d : GoString)
    (hA : A.AuthorityType = AuthorityType.ADFS)
    (hentry : cacheLookup cache A.CanonicalAuthorityURI = some entry)
    (hd : getAdfsDomainFromUpn upn = some d)
    (hmem : d ∈ entry.ValidForDomainsInList) :
    tryGetCachedEndpoints A upn cache = GoResult.ok (some entry.Endpoints) := by
  simp [tryGetCachedEndpoints, hentry, hA, hd, hmem]

theorem tryGet_adfs_miss (A : AuthorityInfo) (upn : GoString) (cache : EndpointCache)
    (entry : authorityEndpointCacheEntry) (d : GoString)
    (hA : A.AuthorityType = AuthorityType.ADFS)
    (hentry : cacheLookup cache A.CanonicalAuthorityURI = some entry)
    (hd : getAdfsDomainFromUpn upn = some d)
    (hmem : d ∉ entry.ValidForDomainsInList) :
    tryGetCachedEndpoints A upn cache = GoResult.ok none := by
  simp [tryGetCachedEndpoints, hentry, hA, hd, hmem]

theorem tryGet_std_hit (A : AuthorityInfo) (upn : GoString) (cache : EndpointCache)
    (entry : authorityEndpointCacheEntry)
    (hA : A.AuthorityType ≠ AuthorityType.ADFS)
    (hentry : cacheLookup cache A.CanonicalAuthorityURI = some entry) :
    tryGetCachedEndpoints A upn cache = GoResult.ok (some entry.Endpoints) := by
  simp [tryGetCachedEndpoints, hentry, hA]

theorem tryGet_no_entry (A : AuthorityInfo) (upn : GoString) (cache : EndpointCache)
    (hentry : cacheLookup cache A.CanonicalAuthorityURI = none) :
    tryGetCachedEndpoints A upn cache = GoResult.ok none := by
  simp [tryGetCachedEndpoints, hentry]

theorem tryGet_ok_of_some (A : AuthorityInfo) (upn : GoString) (cache : EndpointCache)
    (d : GoString) (hd : getAdfsDomainFromUpn upn = some d) :
    ∃ v, tryGetCachedEndpoints A upn cache = GoResult.ok v := by
  cases hentry : cacheLookup cache A.CanonicalAuthorityURI with
  | none => exact ⟨none, tryGet_no_entry A upn cache hentry⟩
  | some entry =>
    by_cases hA : A.AuthorityType = AuthorityType.ADFS
    · by_cases hmem : d ∈ entry.ValidForDomainsInList
      · exact ⟨some entry.Endpoints, tryGet_adfs_hit A upn cache entry d hA hentry hd hmem⟩
      · exact ⟨none, tryGet_adfs_miss A upn cache entry d hA hentry hd hmem⟩
    · exact ⟨some entry.Endpoints, tryGet_std_hit A upn cache entry hA hentry⟩

theorem addCached_std (A : AuthorityInfo) (upn : GoString)
    (eps : AuthorityEndpoints) (cache : EndpointCache)
    (hA : A.AuthorityType ≠ AuthorityType.ADFS) :
    addCachedEndpoints A upn eps cache =
      GoResult.ok (cacheStore cache A.CanonicalAuthorityURI ⟨eps, []⟩) := by
  simp [addCachedEndpoints, hA, createAuthorityEndpointCacheEntry]

theorem addCached_adfs_prior (A : AuthorityInfo) (upn : GoString)
    (eps : AuthorityEndpoints) (cache : EndpointCache)
    (entry : authorityEndpointCacheEntry) (d : GoString)
    (hA : A.AuthorityType = AuthorityType.ADFS)
    (hentry : cacheLookup cache A.CanonicalAuthorityURI = some entry)
    (hd : getAdfsDomainFromUpn upn = some d) :
    addCachedEndpoints A upn eps cache =
      GoResult.ok (cacheStore cache A.CanonicalAuthorityURI
        ⟨eps, setInsert entry.ValidForDomainsInList d⟩) := by
  simp [addCachedEndpoints, hA, hentry, hd, createAuthorityEndpointCacheEntry]

theorem addCached_ok_of_some (A : AuthorityInfo) (upn : GoString)
    (eps : AuthorityEndpoints) (cache : EndpointCache) (d : GoString)
    (hd : getAdfsDomainFromUpn upn = some d) :
    ∃ c', addCachedEndpoints A upn eps cache = GoResult.ok c' := by
  unfold addCachedEndpoints
  by_cases hA : A.AuthorityType = AuthorityType.ADFS
  · rw [if_pos hA, hd]
    exact ⟨_, rfl⟩
  · rw [if_neg hA]
    exact ⟨_, rfl⟩

/-! ### Helper lemmas: `ResolveEndpoints` path characterizations -/

theorem resolve_guard (m : AuthorityEndpointResolutionManager)
    (cem : EndpointManagerFactory) (A : AuthorityInfo) (upn : GoString)
    (cache : EndpointCache)
    (hA : A.AuthorityType = AuthorityType.ADFS) (hupn : upn = []) :
    ResolveEndpoints m cem A upn cache =
      ⟨GoResult.ok (Except.error ResolveError.upnRequiredForADFS), cache, 0⟩ := by
  simp [ResolveEndpoints, hA, hupn]

theorem resolve_tryGet_panic (m : AuthorityEndpointResolutionManager)
    (cem : EndpointManagerFactory) (A : AuthorityInfo) (upn : GoString)
    (cache : EndpointCache)
    (hguard : ¬(A.AuthorityType = AuthorityType.ADFS ∧ upn = []))
    (htry : tryGetCachedEndpoints A upn cache = GoResult.panicked) :
    ResolveEndpoints m cem A upn cache = ⟨GoResult.panicked, cache, 0⟩ := by
  simp [ResolveEndpoints, hguard, htry]

theorem resolve_cache_hit (m : AuthorityEndpointResolutionManager)
    (cem : EndpointManagerFactory) (A : AuthorityInfo) (upn : GoString)
    (cache : EndpointCache) (eps : AuthorityEndpoints)
    (hguard : ¬(A.AuthorityType = AuthorityType.ADFS ∧ upn = []))
    (htry : tryGetCachedEndpoints A upn cache = GoResult.ok (some eps)) :
    ResolveEndpoints m cem A upn cache =
      ⟨GoResult.ok (Except.ok eps), cache, 0⟩ := by
  simp [ResolveEndpoints, hguard, htry]

theorem resolve_cem_fail (m : AuthorityEndpointResolutionManager)
    (cem : EndpointManagerFactory) (A : AuthorityInfo) (upn : GoString)
    (cache : EndpointCache) (msg : GoString)
    (hguard : ¬(A.AuthorityType = AuthorityType.ADFS ∧ upn = []))
    (htry : tryGetCachedEndpoints A upn cache = GoResult.ok none)
    (hcem : cem A = Except.error msg) :
    ResolveEndpoints m cem A upn cache =
      ⟨GoResult.ok (Except.error (ResolveError.endpointManagerCreation msg)),
        cache, 0⟩ := by
  simp [ResolveEndpoints, hguard, htry, hcem]

theorem resolve_em_fail (m : AuthorityEndpointResolutionManager)
    (cem : EndpointManagerFactory) (A : AuthorityInfo) (upn : GoString)
    (cache : EndpointCache) (em : EndpointManagerFun) (msg : GoString)
    (hguard : ¬(A.AuthorityType = AuthorityType.ADFS ∧ upn = []))
    (htry : tryGetCachedEndpoints A upn cache = GoResult.ok none)
    (hcem : cem A = Except.ok em)
    (hem : em A upn = Except.error msg) :
    ResolveEndpoints m cem A upn cache =
      ⟨GoResult.ok (Except.error (ResolveError.openIDConfigEndpoint msg)),
        cache, 0⟩ := by
  simp [ResolveEndpoints, hguard, htry, hcem, hem]

theorem resolve_web_fail (m : AuthorityEndpointResolutionManager)
    (cem : EndpointManagerFactory) (A : AuthorityInfo) (upn : GoString)
    (cache : EndpointCache) (em : EndpointManagerFun) (url msg : GoString)
    (hguard : ¬(A.AuthorityType = AuthorityType.ADFS ∧ upn = []))
    (htry : tryGetCachedEndpoints A upn cache = GoResult.ok none)
    (hcem : cem A = Except.ok em)
    (hem : em A upn = Except.ok url)
    (hweb : m.webRequestManager url = Except.error msg) :
    ResolveEndpoints m cem A upn cache =
      ⟨GoResult.ok (Except.error (ResolveError.tenantDiscovery msg)),
        cache, 1⟩ := by
  simp [ResolveEndpoints, hguard, htry, hcem, hem, hweb]

theorem resolve_no_auth_endpoint (m : AuthorityEndpointResolutionManager)
    (cem : EndpointManagerFactory) (A : AuthorityInfo) (upn : GoString)
    (cache : EndpointCache) (em : EndpointManagerFun) (url : GoString)
    (tdr : TenantDiscoveryResponse)
    (hguard : ¬(A.AuthorityType = AuthorityType.ADFS ∧ upn = []))
    (htry : tryGetCachedEndpoints A upn cache = GoResult.ok none)
    (hcem : cem A = Except.ok em)
    (hem : em A upn = Except.ok url)
    (hweb : m.webRequestManager url = Except.ok tdr)
    (h1 : tdr.HasAuthorizationEndpoint = false) :
    ResolveEndpoints m cem A upn cache =
      ⟨GoResult.ok (Except.error ResolveError.authorizeEndpointNotFound),
        cache, 1⟩ := by
  simp [ResolveEndpoints, hguard, htry, hcem, hem, hweb, h1]

theorem resolve_no_token_endpoint (m : AuthorityEndpointResolutionManager)
    (cem : EndpointManagerFactory) (A : AuthorityInfo) (upn : GoString)
    (cache : EndpointCache) (em : EndpointManagerFun) (url : GoString)
    (tdr : TenantDiscoveryResponse)
    (hguard : ¬(A.AuthorityType = AuthorityType.ADFS ∧ upn = []))
    (htry : tryGetCachedEndpoints A upn cache = GoResult.ok none)
    (hcem : cem A = Except.ok em)
    (hem : em A upn = Except.ok url)
    (hweb : m.webRequestManager url = Except.ok tdr)
    (h1 : tdr.HasAuthorizationEndpoint = true)
    (h2 : tdr.HasTokenEndpoint = false) :
    ResolveEndpoints m cem A upn cache =
      ⟨GoResult.ok (Except.error ResolveError.tokenEndpointNotFound),
        cache, 1⟩ := by
  simp [ResolveEndpoints, hguard, htry, hcem, hem, hweb, h1, h2]

theorem resolve_no_issuer (m : AuthorityEndpointResolutionManager)
    (cem : EndpointManagerFactory) (A : AuthorityInfo) (upn : GoString)
    (cache : EndpointCache) (em : EndpointManagerFun) (url : GoString)
    (tdr : TenantDiscoveryResponse)
    (hguard : ¬(A.AuthorityType = AuthorityType.ADFS ∧ upn = []))
    (htry : tryGetCachedEndpoints A upn cache = GoResult.ok none)
    (hcem : cem A = Except.ok em)
    (hem : em A upn = Except.ok url)
    (hweb : m.webRequestManager url = Except.ok tdr)
    (h1 : tdr.HasAuthorizationEndpoint = true)
    (h2 : tdr.HasTokenEndpoint = true)
    (h3 : tdr.HasIssuer = false) :
    ResolveEndpoints m cem A upn cache =
      ⟨GoResult.ok (Except.error ResolveError.issuerNotFound), cache, 1⟩ := by
  simp [ResolveEndpoints, hguard, htry, hcem, hem, hweb, h1, h2, h3]

theorem resolve_add_panic (m : AuthorityEndpointResolutionManager)
    (cem : EndpointManagerFactory) (A : AuthorityInfo) (upn : GoString)
    (cache : EndpointCache) (em : EndpointManagerFun) (url : GoString)
    (tdr : TenantDiscoveryResponse)
    (hguard : ¬(A.AuthorityType = AuthorityType.ADFS ∧ upn = []))
    (htry : tryGetCachedEndpoints A upn cache = GoResult.ok none)
    (hcem : cem A = Except.ok em)
    (hem : em A upn = Except.ok url)
    (hweb : m.webRequestManager url = Except.ok tdr)
    (h1 : tdr.HasAuthorizationEndpoint = true)
    (h2 : tdr.HasTokenEndpoint = true)
    (h3 : tdr.HasIssuer = true)
    (hadd : addCachedEndpoints A upn
      (CreateAuthorityEndpoints
        (replaceAll tenantPlaceholder A.Tenant tdr.AuthorizationEndpoint)
        (replaceAll tenantPlaceholder A.Tenant tdr.TokenEndpoint)
        (replaceAll tenantPlaceholder A.Tenant tdr.Issuer)
        A.Host) cache = GoResult.panicked) :
    ResolveEndpoints m cem A upn cache = ⟨GoResult.panicked, cache, 1⟩ := by
  simp [ResolveEndpoints, hguard, htry, hcem, hem, hweb, h1, h2, h3, hadd]

theorem resolve_full_success (m : AuthorityEndpointResolutionManager)
    (cem : EndpointManagerFactory) (A : AuthorityInfo) (upn : GoString)
    (cache cache' : EndpointCache) (em : EndpointManagerFun) (url : GoString)
    (tdr : TenantDiscoveryResponse)
    (hguard : ¬(A.AuthorityType = AuthorityType.ADFS ∧ upn = []))
    (htry : tryGetCachedEndpoints A upn cache = GoResult.ok none)
    (hcem : cem A = Except.ok em)
    (hem : em A upn = Except.ok url)
    (hweb : m.webRequestManager url = Except.ok tdr)
    (h1 : tdr.HasAuthorizationEndpoint = true)
    (h2 : tdr.HasTokenEndpoint = true)
    (h3 : tdr.HasIssuer = true)
    (hadd : addCachedEndpoints A upn
      (CreateAuthorityEndpoints
        (replaceAll tenantPlaceholder A.Tenant tdr.AuthorizationEndpoint)
        (replaceAll tenantPlaceholder A.Tenant tdr.TokenEndpoint)
        (replaceAll tenantPlaceholder A.Tenant tdr.Issuer)
        A.Host) cache = GoResult.ok cache') :
    ResolveEndpoints m cem A upn cache =
      ⟨GoResult.ok (Except.ok (CreateAuthorityEndpoints
        (replaceAll tenantPlaceholder A.Tenant tdr.AuthorizationEndpoint)
        (replaceAll tenantPlaceholder A.Tenant tdr.TokenEndpoint)
        (replaceAll tenantPlaceholder A.Tenant tdr.Issuer)
        A.Host)), cache', 1⟩ := by
  simp [ResolveEndpoints, hguard, htry, hcem, hem, hweb, h1, h2, h3, hadd]

/-- If the UPN's domain extraction succeeds, no execution of
`ResolveEndpoints` panics: both panic sites stem from
`getAdfsDomainFromUpn` being out of range. -/
theorem resolve_no_panic (m : AuthorityEndpointResolutionManager)
    (cem : EndpointManagerFactory) (A : AuthorityInfo) (upn : GoString)
    (cache : EndpointCache) (d : GoString)
    (hd : getAdfsDomainFromUpn upn = some d) :
    (ResolveEndpoints m cem A upn cache).result ≠ GoResult.panicked := by
  by_cases hguard : A.AuthorityType = AuthorityType.ADFS ∧ upn = []
  · rw [resolve_guard m cem A upn cache hguard.1 hguard.2]
    simp
  · cases htry : tryGetCachedEndpoints A upn cache with
    | panicked =>
      obtain ⟨v, hv⟩ := tryGet_ok_of_some A upn cache d hd
      rw [htry] at hv
      exact absurd hv (by simp)
    | ok v =>
      cases v with
      | some eps =>
        rw [resolve_cache_hit m cem A upn cache eps hguard htry]
        simp
      | none =>
        cases hcem : cem A with
        | error msg =>
          rw [resolve_cem_fail m cem A upn cache msg hguard htry hcem]
          simp
        | ok em =>
          cases hem : em A upn with
          | error msg =>
            rw [resolve_em_fail m cem A upn cache em msg hguard htry hcem hem]
            simp
          | ok url =>
            cases hweb : m.webRequestManager url with
            | error msg =>
              rw [resolve_web_fail m cem A upn cache em url msg hguard htry
                hcem hem hweb]
              simp
            | ok tdr =>
              cases h1 : tdr.HasAuthorizationEndpoint with
              | false =>
                rw [resolve_no_auth_endpoint m cem A upn cache em url tdr
                  hguard htry hcem hem hweb h1]
                simp
              | true =>
                cases h2 : tdr.HasTokenEndpoint with
                | false =>
                  rw [resolve_no_token_endpoint m cem A upn cache em url tdr
                    hguard htry hcem hem hweb h1 h2]
                  simp
                | true =>
                  cases h3 : tdr.HasIssuer with
                  | false =>
                    rw [resolve_no_issuer m cem A upn cache em url tdr
                      hguard htry hcem hem hweb h1 h2 h3]
                    simp
                  | true =>
                    cases hadd : addCachedEndpoints A upn
                        (CreateAuthorityEndpoints
                          (replaceAll tenantPlaceholder A.Tenant
                            tdr.AuthorizationEndpoint)
                          (replaceAll tenantPlaceholder A.Tenant
                            tdr.TokenEndpoint)
                          (replaceAll tenantPlaceholder A.Tenant tdr.Issuer)
                          A.Host) cache with
                    | panicked =>
                      obtain ⟨c', hc'⟩ := addCached_ok_of_some A upn _ cache d hd
                      rw [hadd] at hc'
                      exact absurd hc' (by simp)
                    | ok cache' =>
                      rw [resolve_full_success m cem A upn cache cache' em url
                        tdr hguard htry hcem hem hweb h1 h2 h3 hadd]
                      simp

/-! ### The claims -/

/-- Claim C10 (confirmed): on every input where `ResolveEndpoints` returns
an error — missing UPN for ADFS, endpoint-manager construction failure,
document-URL derivation failure, discovery failure, or an incomplete
discovery document — the shared endpoint cache is exactly what it was
before the call; only the final success path stores an entry. -/
theorem C10_error_leaves_cache_unchanged (m : AuthorityEndpointResolutionManager)
    (cem : EndpointManagerFactory) (A : AuthorityInfo) (upn : GoString)
    (cache : EndpointCache) (e : ResolveError)
    (hres : (ResolveEndpoints m cem A upn cache).result =
      GoResult.ok (Except.error e)) :
    (ResolveEndpoints m cem A upn cache).cache = cache := by
  by_cases hguard : A.AuthorityType = AuthorityType.ADFS ∧ upn = []
  · rw [resolve_guard m cem A upn cache hguard.1 hguard.2]
  · cases htry : tryGetCachedEndpoints A upn cache with
    | panicked => rw [resolve_tryGet_panic m cem A upn cache hguard htry]
    | ok v =>
      cases v with
      | some eps => rw [resolve_cache_hit m cem A upn cache eps hguard htry]
      | none =>
        cases hcem : cem A with
        | error msg => rw [resolve_cem_fail m cem A upn cache msg hguard htry hcem]
        | ok em =>
          cases hem : em A upn with
          | error msg =>
            rw [resolve_em_fail m cem A upn cache em msg hguard htry hcem hem]
          | ok url =>
            cases hweb : m.webRequestManager url with
            | error msg =>
              rw [resolve_web_fail m cem A upn cache em url msg hguard htry
                hcem hem hweb]
            | ok tdr =>
              cases h1 : tdr.HasAuthorizationEndpoint with
              | false =>
                rw [resolve_no_auth_endpoint m cem A upn cache em url tdr
                  hguard htry hcem hem hweb h1]
              | true =>
                cases h2 : tdr.HasTokenEndpoint with
                | false =>
                  rw [resolve_no_token_endpoint m cem A upn cache em url tdr
                    hguard htry hcem hem hweb h1 h2]
                | true =>
                  cases h3 : tdr.HasIssuer with
                  | false =>
                    rw [resolve_no_issuer m cem A upn cache em url tdr
                      hguard htry hcem hem hweb h1 h2 h3]
                  | true =>
                    cases hadd : addCachedEndpoints A upn
                        (CreateAuthorityEndpoints
                          (replaceAll tenantPlaceholder A.Tenant
                            tdr.AuthorizationEndpoint)
                          (replaceAll tenantPlaceholder A.Tenant
                            tdr.TokenEndpoint)
                          (replaceAll tenantPlaceholder A.Tenant tdr.Issuer)
                          A.Host) cache with
                    | panicked =>
                      rw [resolve_add_panic m cem A upn cache em url tdr
                        hguard htry hcem hem hweb h1 h2 h3 hadd]
                    | ok cache' =>
                      rw [resolve_full_success m cem A upn cache cache' em url
                        tdr hguard htry hcem hem hweb h1 h2 h3 hadd] at hres
                      simp at hres

/-- Witness for C10: a concrete erroring call (failing endpoint-manager
factory) leaves the (empty) cache empty. -/
theorem C10_witness :
    (ResolveEndpoints mgrDown cemFail authAdfs "u@x".toList []).result =
      GoResult.ok (Except.error
        (ResolveError.endpointManagerCreation "no manager".toList)) ∧
    (ResolveEndpoints mgrDown cemFail authAdfs "u@x".toList []).cache = [] :=
  ⟨by decide,
    C10_error_leaves_cache_unchanged mgrDown cemFail authAdfs "u@x".toList []
      (ResolveError.endpointManagerCreation "no manager".toList) (by decide)⟩

/-- Claim C9 (confirmed): for an ADFS authority and a non-empty UPN,
`ResolveEndpoints` is total (never reaches the out-of-range split index
modelled by `GoResult.panicked`) for every cache and every collaborator
exactly when the UPN contains an `'@'`; a non-empty UPN with no `'@'`
admits an execution (an ADFS authority with a cache entry at its canonical
URI) in which the domain extraction indexes past the end of the split
result instead of returning an error. -/
theorem C9_total_iff_upn_has_at (upn : GoString) (hne : upn ≠ []) :
    (∀ m cem A cache, (ResolveEndpoints m cem A upn cache).result ≠
      GoResult.panicked) ↔ '@' ∈ upn := by
  constructor
  · intro h
    by_contra hnot
    have hdn := getAdfsDomainFromUpn_eq_none upn hnot
    apply h mgrDown cemFail authAdfs cacheDomC
    have hguard : ¬(authAdfs.AuthorityType = AuthorityType.ADFS ∧ upn = []) :=
      fun hg => hne hg.2
    have htry : tryGetCachedEndpoints authAdfs upn cacheDomC =
        GoResult.panicked := by
      simp [tryGetCachedEndpoints, cacheLookup, cacheDomC, authAdfs, hdn]
    rw [resolve_tryGet_panic mgrDown cemFail authAdfs upn cacheDomC hguard htry]
  · intro h m cem A cache
    obtain ⟨d, hd⟩ := getAdfsDomainFromUpn_isSome upn h
    exact resolve_no_panic m cem A upn cache d hd

/-- Witness for C9 at the concrete UPN `"user@x.com"`. -/
theorem C9_witness :
    "user@x.com".toList ≠ ([] : GoString) ∧
    ((∀ m cem A cache,
      (ResolveEndpoints m cem A "user@x.com".toList cache).result ≠
        GoResult.panicked) ↔ '@' ∈ "user@x.com".toList) :=
  ⟨by decide, C9_total_iff_upn_has_at "user@x.com".toList (by decide)⟩

/-- Claim C3 (confirmed): for every ADFS authority and empty UPN,
`ResolveEndpoints` returns the validation error with the shared cache
untouched and zero Discovery Fetcher calls — it fails before consulting the
cache (the outcome is the same for every cache content) and before any
discovery. -/
theorem C3_adfs_empty_upn_fails_first (m : AuthorityEndpointResolutionManager)
    (cem : EndpointManagerFactory) (A : AuthorityInfo) (upn : GoString)
    (cache : EndpointCache)
    (hA : A.AuthorityType = AuthorityType.ADFS) (hupn : upn = []) :
    ResolveEndpoints m cem A upn cache =
      ⟨GoResult.ok (Except.error ResolveError.upnRequiredForADFS), cache, 0⟩ :=
  resolve_guard m cem A upn cache hA hupn

/-- Witness for C3 at a concrete ADFS authority with a populated cache. -/
theorem C3_witness :
    ResolveEndpoints mgrUp cemOk authAdfs [] cacheDomC =
      ⟨GoResult.ok (Except.error ResolveError.upnRequiredForADFS),
        cacheDomC, 0⟩ :=
  C3_adfs_empty_upn_fails_first mgrUp cemOk authAdfs [] cacheDomC rfl rfl

/-- Counterexample to claim C1 as stated: for the UPN `"a@b@c"` the domain
portion after the LAST `'@'` is `"c"`, which IS in the entry's
`validForDomains`, yet `ResolveEndpoints` does not serve the cached
endpoints — the code uses `strings.Split(upn, "@")[1]`, the segment after
the FIRST `'@'` (`"b"`), which is not in the set. -/
theorem C1_counterexample :
    specUpnDomain "a@b@c".toList = "c".toList ∧
    "c".toList ∈ entryDomC.ValidForDomainsInList ∧
    ¬ servedFromCache
        (ResolveEndpoints mgrDown cemFail authAdfs "a@b@c".toList cacheDomC)
        entryDomC.Endpoints := by
  decide

/-- Claim C1 (corrected): for every ADFS authority whose canonical URI has
a cache entry, and every UPN whose `'@'`-split has a field at index 1 (the
substring after the FIRST `'@'`, where the spec says "after the last
`'@'`"), `ResolveEndpoints` serves the cached endpoints iff that field is
in the entry's `validForDomains`. -/
theorem C1_adfs_cache_hit_iff (m : AuthorityEndpointResolutionManager)
    (cem : EndpointManagerFactory) (A : AuthorityInfo) (upn : GoString)
    (cache : EndpointCache) (entry : authorityEndpointCacheEntry) (d : GoString)
    (hA : A.AuthorityType = AuthorityType.ADFS)
    (hentry : cacheLookup cache A.CanonicalAuthorityURI = some entry)
    (hd : getAdfsDomainFromUpn upn = some d) :
    servedFromCache (ResolveEndpoints m cem A upn cache) entry.Endpoints ↔
      d ∈ entry.ValidForDomainsInList := by
  have hne := getAdfsDomainFromUpn_ne_nil upn d hd
  have hguard : ¬(A.AuthorityType = AuthorityType.ADFS ∧ upn = []) :=
    fun hg => hne hg.2
  constructor
  · intro hserved
    by_contra hmem
    have htry := tryGet_adfs_miss A upn cache entry d hA hentry hd hmem
    obtain ⟨hres, hcalls⟩ := hserved
    cases hcem : cem A with
    | error msg =>
      rw [resolve_cem_fail m cem A upn cache msg hguard htry hcem] at hres
      simp at hres
    | ok em =>
      cases hem : em A upn with
      | error msg =>
        rw [resolve_em_fail m cem A upn cache em msg hguard htry hcem hem]
          at hres
        simp at hres
      | ok url =>
        cases hweb : m.webRequestManager url with
        | error msg =>
          rw [resolve_web_fail m cem A upn cache em url msg hguard htry hcem
            hem hweb] at hcalls
          simp at hcalls
        | ok tdr =>
          cases h1 : tdr.HasAuthorizationEndpoint with
          | false =>
            rw [resolve_no_auth_endpoint m cem A upn cache em url tdr hguard
              htry hcem hem hweb h1] at hres
            simp at hres
          | true =>
            cases h2 : tdr.HasTokenEndpoint with
            | false =>
              rw [resolve_no_token_endpoint m cem A upn cache em url tdr
                hguard htry hcem hem hweb h1 h2] at hres
              simp at hres
            | true =>
              cases h3 : tdr.HasIssuer with
              | false =>
                rw [resolve_no_issuer m cem A upn cache em url tdr hguard
                  htry hcem hem hweb h1 h2 h3] at hres
                simp at hres
              | true =>
                cases hadd : addCachedEndpoints A upn
                    (CreateAuthorityEndpoints
                      (replaceAll tenantPlaceholder A.Tenant
                        tdr.AuthorizationEndpoint)
                      (replaceAll tenantPlaceholder A.Tenant
                        tdr.TokenEndpoint)
                      (replaceAll tenantPlaceholder A.Tenant tdr.Issuer)
                      A.Host) cache with
                | panicked =>
                  rw [resolve_add_panic m cem A upn cache em url tdr hguard
                    htry hcem hem hweb h1 h2 h3 hadd] at hres
                  simp at hres
                | ok cache' =>
                  rw [resolve_full_success m cem A upn cache cache' em url
                    tdr hguard htry hcem hem hweb h1 h2 h3 hadd] at hcalls
                  simp at hcalls
  · intro hmem
    have htry := tryGet_adfs_hit A upn cache entry d hA hentry hd hmem
    rw [resolve_cache_hit m cem A upn cache entry.Endpoints hguard htry]
    exact ⟨rfl, rfl⟩

/-- Witness for C1 (amended) at a concrete hit: UPN `"a@b"`, entry valid
for `"b"`. -/
theorem C1_witness :
    servedFromCache
      (ResolveEndpoints mgrDown cemFail authAdfs "a@b".toList cacheDomB)
      entryDomB.Endpoints :=
  (C1_adfs_cache_hit_iff mgrDown cemFail authAdfs "a@b".toList cacheDomB
    entryDomB "b".toList (by decide) (by decide) (by decide)).mpr (by decide)

/-- Claim C2 (confirmed): for an ADFS authority, when `ResolveEndpoints`
stores newly discovered endpoints over an existing cache entry for the same
canonical URI, the stored entry's `validForDomains` is the union of the
prior entry's domains and the new UPN's domain: every previously recorded
domain is retained. -/
theorem C2_adfs_store_unions_domains (m : AuthorityEndpointResolutionManager)
    (cem : EndpointManagerFactory) (A : AuthorityInfo) (upn : GoString)
    (cache : EndpointCache) (entry : authorityEndpointCacheEntry)
    (d : GoString) (em : EndpointManagerFun) (url : GoString)
    (tdr : TenantDiscoveryResponse)
    (hA : A.AuthorityType = AuthorityType.ADFS)
    (hentry : cacheLookup cache A.CanonicalAuthorityURI = some entry)
    (hd : getAdfsDomainFromUpn upn = some d)
    (hmem : d ∉ entry.ValidForDomainsInList)
    (hcem : cem A = Except.ok em)
    (hem : em A upn = Except.ok url)
    (hweb : m.webRequestManager url = Except.ok tdr)
    (h1 : tdr.HasAuthorizationEndpoint = true)
    (h2 : tdr.HasTokenEndpoint = true)
    (h3 : tdr.HasIssuer = true) :
    ∃ newEntry,
      cacheLookup (ResolveEndpoints m cem A upn cache).cache
        A.CanonicalAuthorityURI = some newEntry ∧
      (ResolveEndpoints m cem A upn cache).result =
        GoResult.ok (Except.ok newEntry.Endpoints) ∧
      ∀ x, x ∈ newEntry.ValidForDomainsInList ↔
        (x ∈ entry.ValidForDomainsInList ∨ x = d) := by
  have hne := getAdfsDomainFromUpn_ne_nil upn d hd
  have hguard : ¬(A.AuthorityType = AuthorityType.ADFS ∧ upn = []) :=
    fun hg => hne hg.2
  have htry := tryGet_adfs_miss A upn cache entry d hA hentry hd hmem
  have hadd := addCached_adfs_prior A upn
    (CreateAuthorityEndpoints
      (replaceAll tenantPlaceholder A.Tenant tdr.AuthorizationEndpoint)
      (replaceAll tenantPlaceholder A.Tenant tdr.TokenEndpoint)
      (replaceAll tenantPlaceholder A.Tenant tdr.Issuer)
      A.Host) cache entry d hA hentry hd
  rw [resolve_full_success m cem A upn cache _ em url tdr hguard htry hcem
    hem hweb h1 h2 h3 hadd]
  refine ⟨⟨CreateAuthorityEndpoints
      (replaceAll tenantPlaceholder A.Tenant tdr.AuthorizationEndpoint)
      (replaceAll tenantPlaceholder A.Tenant tdr.TokenEndpoint)
      (replaceAll tenantPlaceholder A.Tenant tdr.Issuer)
      A.Host, setInsert entry.ValidForDomainsInList d⟩, ?_, rfl, ?_⟩
  · exact cacheLookup_cacheStore_self cache A.CanonicalAuthorityURI _
  · intro x
    exact mem_setInsert entry.ValidForDomainsInList d x

/-- Witness for C2: re-resolving the ADFS authority for UPN `"u@x.com"`
over an entry valid for `"y.com"` stores an entry valid for both. -/
theorem C2_witness :
    ∃ newEntry,
      cacheLookup
        (ResolveEndpoints mgrUp cemOk authAdfs "u@x.com".toList cacheDomY).cache
        authAdfs.CanonicalAuthorityURI = some newEntry ∧
      (ResolveEndpoints mgrUp cemOk authAdfs "u@x.com".toList cacheDomY).result =
        GoResult.ok (Except.ok newEntry.Endpoints) ∧
      ∀ x, x ∈ newEntry.ValidForDomainsInList ↔
        (x ∈ entryDomY.ValidForDomainsInList ∨ x = "x.com".toList) :=
  C2_adfs_store_unions_domains mgrUp cemOk authAdfs "u@x.com".toList cacheDomY
    entryDomY "x.com".toList _ "cfg".toList tdrFix (by decide) (by decide)
    (by decide) (by decide) rfl rfl rfl (by decide) (by decide) (by decide)

/-- Claim C4 (confirmed): on a cache miss, if the Discovery Fetcher's
document lacks a non-empty authorization endpoint, token endpoint, or
issuer, `ResolveEndpoints` fails with the corresponding discovery error and
returns no endpoints. -/
theorem C4_incomplete_document_fails (m : AuthorityEndpointResolutionManager)
    (cem : EndpointManagerFactory) (A : AuthorityInfo) (upn : GoString)
    (cache : EndpointCache) (em : EndpointManagerFun) (url : GoString)
    (tdr : TenantDiscoveryResponse)
    (hguard : ¬(A.AuthorityType = AuthorityType.ADFS ∧ upn = []))
    (htry : tryGetCachedEndpoints A upn cache = GoResult.ok none)
    (hcem : cem A = Except.ok em)
    (hem : em A upn = Except.ok url)
    (hweb : m.webRequestManager url = Except.ok tdr)
    (hbad : tdr.HasAuthorizationEndpoint = false ∨
      tdr.HasTokenEndpoint = false ∨ tdr.HasIssuer = false) :
    ∃ e, (ResolveEndpoints m cem A upn cache).result =
        GoResult.ok (Except.error e) ∧
      (e = ResolveError.authorizeEndpointNotFound ∨
        e = ResolveError.tokenEndpointNotFound ∨
        e = ResolveError.issuerNotFound) := by
  rcases hbad with hb | hb | hb
  · exact ⟨ResolveError.authorizeEndpointNotFound,
      by rw [resolve_no_auth_endpoint m cem A upn cache em url tdr hguard
        htry hcem hem hweb hb], Or.inl rfl⟩
  · cases h1 : tdr.HasAuthorizationEndpoint with
    | false =>
      exact ⟨ResolveError.authorizeEndpointNotFound,
        by rw [resolve_no_auth_endpoint m cem A upn cache em url tdr hguard
          htry hcem hem hweb h1], Or.inl rfl⟩
    | true =>
      exact ⟨ResolveError.tokenEndpointNotFound,
        by rw [resolve_no_token_endpoint m cem A upn cache em url tdr hguard
          htry hcem hem hweb h1 hb], Or.inr (Or.inl rfl)⟩
  · cases h1 : tdr.HasAuthorizationEndpoint with
    | false =>
      exact ⟨ResolveError.authorizeEndpointNotFound,
        by rw [resolve_no_auth_endpoint m cem A upn cache em url tdr hguard
          htry hcem hem hweb h1], Or.inl rfl⟩
    | true =>
      cases h2 : tdr.HasTokenEndpoint with
      | false =>
        exact ⟨ResolveError.tokenEndpointNotFound,
          by rw [resolve_no_token_endpoint m cem A upn cache em url tdr
            hguard htry hcem hem hweb h1 h2], Or.inr (Or.inl rfl)⟩
      | true =>
        exact ⟨ResolveError.issuerNotFound,
          by rw [resolve_no_issuer m cem A upn cache em url tdr hguard htry
            hcem hem hweb h1 h2 hb], Or.inr (Or.inr rfl)⟩

/-- Witness for C4: a discovery document with an empty authorization
endpoint fails the resolution. -/
theorem C4_witness :
    ∃ e, (ResolveEndpoints mgrNoAuth cemOk authStd "u@x".toList []).result =
        GoResult.ok (Except.error e) ∧
      (e = ResolveError.authorizeEndpointNotFound ∨
        e = ResolveError.tokenEndpointNotFound ∨
        e = ResolveError.issuerNotFound) :=
  C4_incomplete_document_fails mgrNoAuth cemOk authStd "u@x".toList []
    _ "cfg".toList tdrNoAuth (by decide) (by decide) rfl rfl rfl
    (Or.inl (by decide))

/-- A fresh (cache-miss) resolution of a non-ADFS authority through one
manager, followed by a resolution of the same canonical URI through ANY
manager: the first stores, the second is served from the shared cache with
zero discovery calls. -/
theorem resolve_std_roundtrip (m1 m2 : AuthorityEndpointResolutionManager)
    (cem1 cem2 : EndpointManagerFactory) (A : AuthorityInfo)
    (upn1 upn2 : GoString) (cache : EndpointCache) (em : EndpointManagerFun)
    (url : GoString) (tdr : TenantDiscoveryResponse) (eps : AuthorityEndpoints)
    (heps : eps = CreateAuthorityEndpoints
      (replaceAll tenantPlaceholder A.Tenant tdr.AuthorizationEndpoint)
      (replaceAll tenantPlaceholder A.Tenant tdr.TokenEndpoint)
      (replaceAll tenantPlaceholder A.Tenant tdr.Issuer) A.Host)
    (hstd : A.AuthorityType ≠ AuthorityType.ADFS)
    (hmiss : cacheLookup cache A.CanonicalAuthorityURI = none)
    (hcem : cem1 A = Except.ok em)
    (hem : em A upn1 = Except.ok url)
    (hweb : m1.webRequestManager url = Except.ok tdr)
    (h1 : tdr.HasAuthorizationEndpoint = true)
    (h2 : tdr.HasTokenEndpoint = true)
    (h3 : tdr.HasIssuer = true) :
    (ResolveEndpoints m1 cem1 A upn1 cache).result =
      GoResult.ok (Except.ok eps) ∧
    (ResolveEndpoints m1 cem1 A upn1 cache).discoveryCalls = 1 ∧
    ResolveEndpoints m2 cem2 A upn2 (ResolveEndpoints m1 cem1 A upn1 cache).cache =
      ⟨GoResult.ok (Except.ok eps),
        (ResolveEndpoints m1 cem1 A upn1 cache).cache, 0⟩ := by
  subst heps
  have hguard1 : ¬(A.AuthorityType = AuthorityType.ADFS ∧ upn1 = []) :=
    fun hg => hstd hg.1
  have hguard2 : ¬(A.AuthorityType = AuthorityType.ADFS ∧ upn2 = []) :=
    fun hg => hstd hg.1
  have htry1 := tryGet_no_entry A upn1 cache hmiss
  have hadd := addCached_std A upn1 (CreateAuthorityEndpoints
    (replaceAll tenantPlaceholder A.Tenant tdr.AuthorizationEndpoint)
    (replaceAll tenantPlaceholder A.Tenant tdr.TokenEndpoint)
    (replaceAll tenantPlaceholder A.Tenant tdr.Issuer) A.Host) cache hstd
  have hfirst := resolve_full_success m1 cem1 A upn1 cache _ em url tdr
    hguard1 htry1 hcem hem hweb h1 h2 h3 hadd
  have hcache1 : (ResolveEndpoints m1 cem1 A upn1 cache).cache =
      cacheStore cache A.CanonicalAuthorityURI
        ⟨CreateAuthorityEndpoints
          (replaceAll tenantPlaceholder A.Tenant tdr.AuthorizationEndpoint)
          (replaceAll tenantPlaceholder A.Tenant tdr.TokenEndpoint)
          (replaceAll tenantPlaceholder A.Tenant tdr.Issuer) A.Host, []⟩ := by
    rw [hfirst]
  have hlook2 := cacheLookup_cacheStore_self cache A.CanonicalAuthorityURI
    ⟨CreateAuthorityEndpoints
      (replaceAll tenantPlaceholder A.Tenant tdr.AuthorizationEndpoint)
      (replaceAll tenantPlaceholder A.Tenant tdr.TokenEndpoint)
      (replaceAll tenantPlaceholder A.Tenant tdr.Issuer) A.Host, []⟩
  have htry2 := tryGet_std_hit A upn2 _ _ hstd hlook2
  have hsec := resolve_cache_hit m2 cem2 A upn2 _ _ hguard2 htry2
  refine ⟨?_, ?_, ?_⟩
  · rw [hfirst]
  · rw [hfirst]
  · rw [hcache1, hsec]

/-- Claim C5 (confirmed): for a StandardProvider authority with no cache
entry at its canonical URI, a successful resolution followed by a second
resolution of the same URI (any UPN) returns the same endpoints, and
exactly one Discovery Fetcher call is issued across the two resolutions —
the second is served from cache. -/
theorem C5_std_single_discovery (m : AuthorityEndpointResolutionManager)
    (cem : EndpointManagerFactory) (A : AuthorityInfo) (upn1 upn2 : GoString)
    (cache : EndpointCache) (em : EndpointManagerFun) (url : GoString)
    (tdr : TenantDiscoveryResponse)
    (hstd : A.AuthorityType ≠ AuthorityType.ADFS)
    (hmiss : cacheLookup cache A.CanonicalAuthorityURI = none)
    (hcem : cem A = Except.ok em)
    (hem : em A upn1 = Except.ok url)
    (hweb : m.webRequestManager url = Except.ok tdr)
    (h1 : tdr.HasAuthorizationEndpoint = true)
    (h2 : tdr.HasTokenEndpoint = true)
    (h3 : tdr.HasIssuer = true) :
    ∃ eps,
      (ResolveEndpoints m cem A upn1 cache).result =
        GoResult.ok (Except.ok eps) ∧
      (ResolveEndpoints m cem A upn2
        (ResolveEndpoints m cem A upn1 cache).cache).result =
        GoResult.ok (Except.ok eps) ∧
      (ResolveEndpoints m cem A upn1 cache).discoveryCalls +
        (ResolveEndpoints m cem A upn2
          (ResolveEndpoints m cem A upn1 cache).cache).discoveryCalls = 1 := by
  obtain ⟨h1st, hcalls1, h2nd⟩ := resolve_std_roundtrip m m cem cem A upn1
    upn2 cache em url tdr _ rfl hstd hmiss hcem hem hweb h1 h2 h3
  refine ⟨_, h1st, ?_, ?_⟩
  · rw [h2nd]
  · rw [h2nd, hcalls1]
    rfl

/-- Witness for C5 at a concrete standard authority and empty cache. -/
theorem C5_witness :
    ∃ eps,
      (ResolveEndpoints mgrUp cemOk authStd "u1".toList []).result =
        GoResult.ok (Except.ok eps) ∧
      (ResolveEndpoints mgrUp cemOk authStd "u2".toList
        (ResolveEndpoints mgrUp cemOk authStd "u1".toList []).cache).result =
        GoResult.ok (Except.ok eps) ∧
      (ResolveEndpoints mgrUp cemOk authStd "u1".toList []).discoveryCalls +
        (ResolveEndpoints mgrUp cemOk authStd "u2".toList
          (ResolveEndpoints mgrUp cemOk authStd "u1".toList []).cache).discoveryCalls
        = 1 :=
  C5_std_single_discovery mgrUp cemOk authStd "u1".toList "u2".toList []
    _ "cfg".toList tdrFix (by decide) (by decide) rfl rfl rfl (by decide)
    (by decide) (by decide)

/-- Claim C6 (confirmed): on every successful discovery, the endpoints
`ResolveEndpoints` returns are the fetched authorization endpoint, token
endpoint and issuer with every occurrence of the literal placeholder
`"\x7btenant\x7d"` replaced by `authorityInfo.Tenant`. -/
theorem C6_tenant_substitution (m : AuthorityEndpointResolutionManager)
    (cem : EndpointManagerFactory) (A : AuthorityInfo) (upn : GoString)
    (cache cache' : EndpointCache) (em : EndpointManagerFun) (url : GoString)
    (tdr : TenantDiscoveryResponse)
    (hguard : ¬(A.AuthorityType = AuthorityType.ADFS ∧ upn = []))
    (htry : tryGetCachedEndpoints A upn cache = GoResult.ok none)
    (hcem : cem A = Except.ok em)
    (hem : em A upn = Except.ok url)
    (hweb : m.webRequestManager url = Except.ok tdr)
    (h1 : tdr.HasAuthorizationEndpoint = true)
    (h2 : tdr.HasTokenEndpoint = true)
    (h3 : tdr.HasIssuer = true)
    (hadd : addCachedEndpoints A upn
      (CreateAuthorityEndpoints
        (replaceAll tenantPlaceholder A.Tenant tdr.AuthorizationEndpoint)
        (replaceAll tenantPlaceholder A.Tenant tdr.TokenEndpoint)
        (replaceAll tenantPlaceholder A.Tenant tdr.Issuer)
        A.Host) cache = GoResult.ok cache') :
    (ResolveEndpoints m cem A upn cache).result =
      GoResult.ok (Except.ok (CreateAuthorityEndpoints
        (replaceAll tenantPlaceholder A.Tenant tdr.AuthorizationEndpoint)
        (replaceAll tenantPlaceholder A.Tenant tdr.TokenEndpoint)
        (replaceAll tenantPlaceholder A.Tenant tdr.Issuer)
        A.Host)) := by
  rw [resolve_full_success m cem A upn cache cache' em url tdr hguard htry
    hcem hem hweb h1 h2 h3 hadd]

/-- Witness for C6: with tenant `"t0"` and fetched endpoints
`"a/\x7btenant\x7d"`, `"tk/\x7btenant\x7d"`, `"iss"`, the returned
endpoints are `"a/t0"`, `"tk/t0"`, `"iss"`. -/
theorem C6_witness :
    (ResolveEndpoints mgrUp cemOk authStd "u@x".toList []).result =
      GoResult.ok (Except.ok
        ⟨"a/t0".toList, "tk/t0".toList, "iss".toList, "h".toList⟩) := by
  have h := C6_tenant_substitution mgrUp cemOk authStd "u@x".toList [] _
    _ "cfg".toList tdrFix (by decide) (by decide) rfl rfl rfl (by decide)
    (by decide) (by decide) rfl
  rw [h]
  simp [CreateAuthorityEndpoints, replaceAll, tenantPlaceholder, leadsWith,
    tdrFix, authStd]

/-- Counterexample to claim C8 as stated: the endpoint cache is the
package-global `endpointCacheEntries`, shared by ALL resolution-manager
instances.  A second manager (with an unreachable Discovery Fetcher) fails
a fresh resolution of the standard authority, yet after a FIRST, distinct
manager resolves the same canonical URI, the second manager's resolution is
served from the shared cache with no discovery call — its observable
behavior changed. -/
theorem C8_counterexample :
    (∃ e, (ResolveEndpoints mgrDown cemOk authStd "u@x".toList []).result =
      GoResult.ok (Except.error e)) ∧
    (ResolveEndpoints mgrDown cemOk authStd "u@x".toList []).discoveryCalls
      = 1 ∧
    servedFromCache
      (ResolveEndpoints mgrDown cemOk authStd "u@x".toList
        (ResolveEndpoints mgrUp cemOk authStd "u@x".toList []).cache)
      ⟨"a/t0".toList, "tk/t0".toList, "iss".toList, "h".toList⟩ := by
  refine ⟨⟨ResolveError.tenantDiscovery "offline".toList, by decide⟩,
    by decide, ?_⟩
  have h1 : ResolveEndpoints mgrUp cemOk authStd "u@x".toList [] =
      ⟨GoResult.ok (Except.ok
          ⟨"a/t0".toList, "tk/t0".toList, "iss".toList, "h".toList⟩),
        [("https://u".toList,
          ⟨⟨"a/t0".toList, "tk/t0".toList, "iss".toList, "h".toList⟩, []⟩)],
        1⟩ := by
    simp [ResolveEndpoints, tryGetCachedEndpoints, cacheLookup,
      addCachedEndpoints, mgrUp, cemOk, authStd, tdrFix,
      TenantDiscoveryResponse.HasAuthorizationEndpoint,
      TenantDiscoveryResponse.HasTokenEndpoint,
      TenantDiscoveryResponse.HasIssuer, CreateAuthorityEndpoints,
      replaceAll, tenantPlaceholder, leadsWith,
      createAuthorityEndpointCacheEntry, cacheStore]
  rw [h1]
  decide

/-- Claim C8 (corrected): the endpoint cache is process-wide, not
instance-scoped: a fresh resolution of a non-ADFS authority completed
through one manager instance (`m1`) leaves the shared cache in a state in
which ANY other manager instance (`m2`, with any endpoint-manager factory)
has its resolution of the same canonical URI served from the cache, with
zero discovery calls of its own. -/
theorem C8_shared_cache_across_instances
    (m1 m2 : AuthorityEndpointResolutionManager)
    (cem1 cem2 : EndpointManagerFactory) (A : AuthorityInfo)
    (upn1 upn2 : GoString) (cache : EndpointCache) (em : EndpointManagerFun)
    (url : GoString) (tdr : TenantDiscoveryResponse)
    (hstd : A.AuthorityType ≠ AuthorityType.ADFS)
    (hmiss : cacheLookup cache A.CanonicalAuthorityURI = none)
    (hcem : cem1 A = Except.ok em)
    (hem : em A upn1 = Except.ok url)
    (hweb : m1.webRequestManager url = Except.ok tdr)
    (h1 : tdr.HasAuthorizationEndpoint = true)
    (h2 : tdr.HasTokenEndpoint = true)
    (h3 : tdr.HasIssuer = true) :
    ∃ eps, (ResolveEndpoints m1 cem1 A upn1 cache).result =
        GoResult.ok (Except.ok eps) ∧
      servedFromCache (ResolveEndpoints m2 cem2 A upn2
        (ResolveEndpoints m1 cem1 A upn1 cache).cache) eps := by
  obtain ⟨h1st, hcalls1, h2nd⟩ := resolve_std_roundtrip m1 m2 cem1 cem2 A
    upn1 upn2 cache em url tdr _ rfl hstd hmiss hcem hem hweb h1 h2 h3
  exact ⟨_, h1st, by rw [h2nd], by rw [h2nd]⟩

/-- Witness for C8 (amended): two observably different manager instances
(working vs. unreachable fetcher, different factories) — the first
resolution populates the shared cache, the second instance is served from
it. -/
theorem C8_witness :
    ∃ eps, (ResolveEndpoints mgrUp cemOk authStd "u1".toList []).result =
        GoResult.ok (Except.ok eps) ∧
      servedFromCache
        (ResolveEndpoints mgrDown cemFail authStd "u2".toList
          (ResolveEndpoints mgrUp cemOk authStd "u1".toList []).cache) eps :=
  C8_shared_cache_across_instances mgrUp mgrDown cemOk cemFail authStd
    "u1".toList "u2".toList [] _ "cfg".toList tdrFix (by decide) (by decide)
    rfl rfl rfl (by decide) (by decide) (by decide)

end MSAL
